import Mathlib

/-!
Shallow embedding of the whoop-dashboard training core:
`src/training_planner.py` (signal aggregation + recommendation engine) and
`src/workout_generator.py` (workout plan generator).

Modelling conventions:
* Python floats (recovery score, strain, sleep performance, HRV) are modelled
  as rationals `ℚ`; all threshold comparisons in the source are exact.
* Timestamps are modelled as integer day counts: `WorkoutRecord.start` is the
  day index of the workout and `now` is today's day index, so that
  `(now - start).days` of the source becomes `now - start`.  ISO-8601 parsing
  is a library call with no decision content.
* Python's `random.choice(options)` is modelled by an explicit pick
  `options[pick % options.length]`, and `random.random() > 0.5` by an explicit
  boolean, so that every theorem quantifies over all random draws.
* Python f-string number formatting (`:.0f`, `:.1f`) is modelled by `fmt0` /
  `fmt1`; the exact tie-breaking of float rounding is irrelevant to every
  property proved here, which depend only on which strings are appended and in
  which order.
-/

namespace Whoop

/-- Rendering of a Python `{x:.0f}` format field: rounding to the nearest
integer, `⌊q + 1/2⌋`, here computed as `(2·num + den).fdiv (2·den)` so that
it evaluates by kernel reduction (the source's half-even tie-break is
abstracted; no property below depends on the rendered digits). -/
def fmt0 (q : ℚ) : String := toString (Int.fdiv (2 * q.num + q.den) (2 * q.den))

/-- Rendering of a Python `{x:.1f}` format field (one decimal digit),
`⌊10·q + 1/2⌋` split into integer and tenths digits, computed as in
`fmt0`. -/
def fmt1 (q : ℚ) : String :=
  let n : ℤ := Int.fdiv (20 * q.num + q.den) (2 * q.den)
  toString (n / 10) ++ "." ++ toString (n % 10)

/-! ## Data model (training_planner.py) -/

/-- The `score` sub-dict of a recovery record; absent keys are `none`
(mirrors `score.get("recovery_score")` etc.). -/
structure RecoveryScoreData where
  recovery_score : Option ℚ
  hrv_rmssd_milli : Option ℚ
  resting_heart_rate : Option ℚ
  user_calibrating : Bool
deriving Repr, DecidableEq

/-- A recovery record as returned by `get_latest_recovery()`. -/
structure RecoveryRecord where
  score_state : String
  score : RecoveryScoreData
deriving Repr, DecidableEq

/-- The `score` sub-dict of a sleep record. -/
structure SleepScoreData where
  sleep_performance_percentage : Option ℚ
deriving Repr, DecidableEq

/-- A sleep record as returned by `get_latest_sleep()`. -/
structure SleepRecord where
  score_state : String
  score : SleepScoreData
deriving Repr, DecidableEq

/-- The `score` sub-dict of a workout record (`score.get("strain", 0)`). -/
structure WorkoutScoreData where
  strain : Option ℚ
deriving Repr, DecidableEq

/-- A raw workout record from `get_recent_workouts`; `start` is the workout's
day index (see module conventions). -/
structure WorkoutRecord where
  score_state : String
  score : Option WorkoutScoreData
  sport_name : String
  start : ℤ
deriving Repr, DecidableEq

/-- The per-workout summary dict built in `_get_workouts_by_type`
(`{"date": ..., "strain": ..., "sport": ...}`). -/
structure WorkoutData where
  date : ℤ
  strain : ℚ
  sport : String
deriving Repr, DecidableEq

/-- The category dict produced by `_get_workouts_by_type`. -/
structure Categories where
  climbing : List WorkoutData
  running : List WorkoutData
  gym : List WorkoutData
  sauna : List WorkoutData
  other : List WorkoutData
deriving Repr, DecidableEq

def Categories.empty : Categories := ⟨[], [], [], [], []⟩

/-- The result record of `get_todays_recommendation`. -/
structure TrainingRecommendation where
  intensity : String
  strain_target : ℚ × ℚ
  reasoning : List String
  climbing : String
  running : String
  gym : String
  sauna : String
  warnings : List String
deriving Repr, DecidableEq

/-! ## Workout classification (training_planner.py lines 38-78) -/

def climbing_keywords : List String :=
  ["climbing", "bouldering", "rock climbing", "lead climbing"]

def running_keywords : List String :=
  ["running", "run", "jogging", "trail running", "treadmill"]

def gym_keywords : List String :=
  ["functional fitness", "weightlifting", "strength training", "crossfit",
   "gym", "weight training"]

def sauna_keywords : List String :=
  ["sauna", "steam room", "hot tub"]

/-- Python's `needle in hay` on strings: `needle` occurs as a contiguous
substring of `hay` (here on the underlying character lists). -/
def containsSub (needle hay : List Char) : Bool :=
  hay.tails.any (fun t => needle.isPrefixOf t)

/-- Python's `str.lower()`, character-wise on the underlying list (identical
to `String.toLower`, stated this way so that it reduces by computation). -/
def lowerChars (s : String) : List Char := s.data.map Char.toLower

/-- `any(k in sport for k in keywords)`: substring containment of any
keyword in the (already lower-cased) sport name. -/
def hasKeyword (keywords : List String) (sport : List Char) : Bool :=
  keywords.any (fun k => containsSub k.data sport)

/-- The classification cascade of `_get_workouts_by_type`: lower-case the
sport name and test the four keyword lists in priority order, first match
wins, otherwise `"other"`. -/
def classifySport (sport_name : String) : String :=
  let sport := lowerChars sport_name
  if hasKeyword climbing_keywords sport then "climbing"
  else if hasKeyword running_keywords sport then "running"
  else if hasKeyword gym_keywords sport then "gym"
  else if hasKeyword sauna_keywords sport then "sauna"
  else "other"

/-- A workout record counts only when `score_state == "SCORED"` and its
score dict is truthy. -/
def isScored (w : WorkoutRecord) : Bool :=
  w.score_state == "SCORED" && w.score.isSome

/-- The summary dict appended to a category list for a scored workout. -/
def toWorkoutData (w : WorkoutRecord) : WorkoutData :=
  { date := w.start
    strain := (w.score.map (fun s => s.strain.getD 0)).getD 0
    sport := w.sport_name }

/-- One iteration of the classification loop: append the scored workout's
summary to the category chosen by `classifySport`. -/
def addWorkout (c : Categories) (w : WorkoutRecord) : Categories :=
  if isScored w then
    let d := toWorkoutData w
    let cat := classifySport w.sport_name
    if cat == "climbing" then { c with climbing := c.climbing ++ [d] }
    else if cat == "running" then { c with running := c.running ++ [d] }
    else if cat == "gym" then { c with gym := c.gym ++ [d] }
    else if cat == "sauna" then { c with sauna := c.sauna ++ [d] }
    else { c with other := c.other ++ [d] }
  else c

/-- `_get_workouts_by_type`: categorize the recent workouts, skipping
unscored records, preserving iteration order. -/
def getWorkoutsByType (ws : List WorkoutRecord) : Categories :=
  ws.foldl addWorkout Categories.empty

/-! ## Rolling statistics (training_planner.py lines 80-95, 134-136) -/

/-- `max(climbing, key=lambda x: x["date"])` — first maximal element wins
ties, as Python's `max` does. -/
def maxByDate (c : WorkoutData) (cs : List WorkoutData) : WorkoutData :=
  cs.foldl (fun b x => if x.date > b.date then x else b) c

/-- `_days_since_climbing`: 999 when no climbing was recorded, otherwise
days between now and the latest climbing session. -/
def daysSinceClimbing (climbing : List WorkoutData) (now : ℤ) : ℤ :=
  match climbing with
  | [] => 999
  | c :: cs => now - (maxByDate c cs).date

/-- `_climbing_load_7d`: session count and total strain. -/
def climbingLoad7d (climbing : List WorkoutData) : ℕ × ℚ :=
  (climbing.length, (climbing.map (fun c => c.strain)).sum)

/-! ## Recommendation engine (training_planner.py lines 97-252) -/

/-- The tail of `get_todays_recommendation` shared by every decision branch:
the unconditional sauna re-assignment from the final intensity (lines
228-234) and the trailing metric reasoning entries (lines 236-241, with the
`if hrv:` / `if rhr:` truthiness tests of the source). -/
def finishRecommendation (intensity : String) (strain_target : ℚ × ℚ)
    (reasoning : List String) (climbing running gym : String)
    (warnings : List String) (hrv rhr : Option ℚ)
    (climb_count : ℕ) (climb_strain : ℚ) : TrainingRecommendation :=
  let sauna :=
    if intensity == "rest" || intensity == "easy" then
      "✓ Sauna is a good option for recovery"
    else if intensity == "moderate" then "Optional - fine if you want it"
    else "Skip or do post-workout only"
  let reasoning := reasoning
    ++ (match hrv with
        | some v => if v = 0 then [] else ["HRV: " ++ fmt1 v ++ "ms"]
        | none => [])
    ++ (match rhr with
        | some v => if v = 0 then [] else ["Resting HR: " ++ fmt0 v ++ "bpm"]
        | none => [])
    ++ ["7-day climbing: " ++ toString climb_count ++ " sessions, "
        ++ fmt1 climb_strain ++ " total strain"]
  { intensity := intensity, strain_target := strain_target,
    reasoning := reasoning, climbing := climbing, running := running,
    gym := gym, sauna := sauna, warnings := warnings }

/-- The GREEN ZONE branch of the decision tree (lines 149-181). -/
def greenZone (rs : ℚ) (hrv rhr : Option ℚ) (warnings0 : List String)
    (days_since_climb : ℤ) (climb_count : ℕ) (climb_strain : ℚ) :
    TrainingRecommendation :=
  let r1 := ["Recovery " ++ fmt0 rs ++ "% (green) - body is ready"]
  if days_since_climb == 0 then
    finishRecommendation "moderate" (10, 14)
      (r1 ++ ["Climbed recently - prioritize finger recovery"])
      "⚠️ Rest fingers - climbed recently. Light hangboard at most"
      "Good day for a harder run"
      "Upper body might be fatigued - focus on legs/cardio"
      warnings0 hrv rhr climb_count climb_strain
  else if days_since_climb == 1 then
    finishRecommendation "moderate" (10, 14)
      (r1 ++ ["1 day since climbing - fingers still recovering"])
      "Easy climbing OK if fingers feel good, no projecting"
      "Moderate to hard effort OK" "Full session OK"
      warnings0 hrv rhr climb_count climb_strain
  else if climb_count ≥ 4 then
    finishRecommendation "moderate" (10, 14) r1
      "Consider rest day from climbing - high weekly volume"
      "Good alternative - run or gym" "Good option today"
      (warnings0 ++ ["Already " ++ toString climb_count
        ++ " climbing sessions this week - watch for overuse"])
      hrv rhr climb_count climb_strain
  else
    finishRecommendation "hard" (14, 18)
      (r1 ++ [toString days_since_climb
        ++ " days rest from climbing - fresh for hard session"])
      "🔥 Project day - send something hard" "Intervals or long run"
      "Heavy session OK" warnings0 hrv rhr climb_count climb_strain

/-- The YELLOW ZONE branch (lines 183-206), including the sleep override.
`if sleep_performance and sleep_performance < 70` is Python truthiness: a
value of 0 does NOT trigger the override. -/
def yellowZone (rs : ℚ) (hrv rhr : Option ℚ) (warnings0 : List String)
    (sleep_performance : Option ℚ) (days_since_climb : ℤ)
    (climb_count : ℕ) (climb_strain : ℚ) : TrainingRecommendation :=
  let r1 := ["Recovery " ++ fmt0 rs ++ "% (yellow) - moderate readiness"]
  let base : String × (ℚ × ℚ) × String × String × String :=
    if days_since_climb ≤ 1 then
      ("easy", (6, 10), "Rest from climbing today", "Easy jog only",
       "Light session or skip")
    else
      ("moderate", (10, 14), "Moderate routes - volume over intensity",
       "Steady state, nothing too hard",
       "Normal session, moderate weights")
  match sleep_performance with
  | some sp =>
    if sp ≠ 0 ∧ sp < 70 then
      finishRecommendation "easy" (6, 10)
        (r1 ++ ["Sleep only " ++ fmt0 sp ++ "% - take it easier"])
        "Easy climbing or rest" "Easy jog or walk" base.2.2.2.2
        warnings0 hrv rhr climb_count climb_strain
    else
      finishRecommendation base.1 base.2.1 r1 base.2.2.1 base.2.2.2.1
        base.2.2.2.2 warnings0 hrv rhr climb_count climb_strain
  | none =>
    finishRecommendation base.1 base.2.1 r1 base.2.2.1 base.2.2.2.1
      base.2.2.2.2 warnings0 hrv rhr climb_count climb_strain

/-- The RED ZONE branch (lines 208-226). -/
def redZone (rs : ℚ) (hrv rhr : Option ℚ) (warnings0 : List String)
    (climb_count : ℕ) (climb_strain : ℚ) : TrainingRecommendation :=
  let r1 := ["Recovery " ++ fmt0 rs ++ "% (red) - prioritize recovery"]
  if rs < 20 then
    finishRecommendation "rest" (0, 5) r1 "❌ No climbing" "❌ No running"
      "❌ Rest day"
      (warnings0 ++
        ["Very low recovery - check if you're getting sick or overstressed"])
      hrv rhr climb_count climb_strain
  else
    finishRecommendation "easy" (4, 8) r1
      "❌ Skip climbing - fingers need recovery too" "Light walk at most"
      "Skip or very light mobility work" warnings0 hrv rhr climb_count
      climb_strain

/-- The decision tree of `get_todays_recommendation` (lines 138-252), as a
function of the extracted signals.  The sauna strings assigned inside the
branches of the source (lines 147, 193, 218, 226) are dead stores: lines
228-234 re-assign `sauna` from the final intensity on every path, which is
what `finishRecommendation` does. -/
def decisionCore (recovery_score hrv rhr : Option ℚ) (warnings0 : List String)
    (sleep_performance : Option ℚ) (days_since_climb : ℤ)
    (climb_count : ℕ) (climb_strain : ℚ) : TrainingRecommendation :=
  match recovery_score with
  | none =>
    finishRecommendation "moderate" (8, 12)
      ["No recovery data - defaulting to moderate"]
      "Moderate routes, focus on technique" "Easy to moderate pace"
      "Regular session" warnings0 hrv rhr climb_count climb_strain
  | some rs =>
    if rs ≥ 67 then
      greenZone rs hrv rhr warnings0 days_since_climb climb_count climb_strain
    else if rs ≥ 34 then
      yellowZone rs hrv rhr warnings0 sleep_performance days_since_climb
        climb_count climb_strain
    else
      redZone rs hrv rhr warnings0 climb_count climb_strain

/-- The sleep-quality extraction of lines 123-128: the performance
percentage of a scored sleep record, else unknown. -/
def extractSleepPerformance (sleep : Option SleepRecord) : Option ℚ :=
  match sleep with
  | some s =>
    if s.score_state == "SCORED" then s.score.sleep_performance_percentage
    else none
  | none => none

/-- `get_todays_recommendation`, as a function of the data fetched from the
client: latest recovery record, latest sleep record, recent strain values,
recent workout records and the current day index.  The locals `avg_strain`
and `high_strain_days` of the source (lines 135-136) are computed but never
read by the decision logic, so they do not appear here. -/
def getTodaysRecommendation (recovery : Option RecoveryRecord)
    (sleep : Option SleepRecord) (recent_strain : List ℚ)
    (ws : List WorkoutRecord) (now : ℤ) : TrainingRecommendation :=
  let workout_categories := getWorkoutsByType ws
  let rdata : Option RecoveryScoreData :=
    match recovery with
    | some r => if r.score_state == "SCORED" then some r.score else none
    | none => none
  let recovery_score := rdata.bind (fun s => s.recovery_score)
  let hrv := rdata.bind (fun s => s.hrv_rmssd_milli)
  let rhr := rdata.bind (fun s => s.resting_heart_rate)
  let warnings0 :=
    match rdata with
    | some s =>
      if s.user_calibrating then
        ["WHOOP is still calibrating - recommendations may be less accurate"]
      else []
    | none => []
  let sleep_performance := extractSleepPerformance sleep
  let days_since_climb := daysSinceClimbing workout_categories.climbing now
  let load := climbingLoad7d workout_categories.climbing
  decisionCore recovery_score hrv rhr warnings0 sleep_performance
    days_since_climb load.1 load.2

/-! ## Workout generator data model (workout_generator.py lines 9-17) -/

/-- A generated workout (the `Workout` dataclass). -/
structure Workout where
  activity : String
  title : String
  duration_min : ℕ
  intensity : String
  description : String
  details : List String
  strain_estimate : ℚ × ℚ
deriving Repr, DecidableEq

/-- A catalog entry (the per-workout template dicts of the class-level
catalog tables). -/
structure WorkoutTemplate where
  title : String
  duration : ℕ
  description : String
  details : List String
  strain : ℚ × ℚ
deriving Repr, DecidableEq

/-! ## Catalogs (workout_generator.py lines 24-325).
Each Python dict keyed by intensity becomes a function with the dict's
`.get(intensity, [])` default. -/

def CLIMBING_WORKOUTS (intensity : String) : List WorkoutTemplate :=
  if intensity = "rest" then []
  else if intensity = "easy" then
    [{ title := "Easy Climbing + Finger Maintenance", duration := 60,
       description := "Light session with low-intensity finger work",
       details :=
        ["Warm up: 15 min easy traversing",
         "Hangboard: 3x10s half crimp @ bodyweight",
         "Climb 2-3 grades below max",
         "Focus on open-hand grip on easy holds",
         "Finger rolls with light weight: 3x15",
         "Cool down: Finger stretches + rice bucket"],
       strain := (5, 8) },
     { title := "Volume Session - Grip Endurance", duration := 75,
       description := "High volume for finger stamina",
       details :=
        ["Warm up: 10 min + progressive hangs",
         "Climb 15-20 easy problems focusing on grip",
         "Vary grip types: open, half crimp, pinch",
         "Repeaters: 7s on/3s off x6 (half crimp)",
         "Rest 3 min, repeat 2-3 sets",
         "Cool down: Reverse wrist curls + stretching"],
       strain := (6, 9) }]
  else if intensity = "moderate" then
    [{ title := "Hangboard - Repeaters Protocol", duration := 90,
       description := "Build finger endurance with repeaters",
       details :=
        ["Warm up: 20 min climbing + progressive hangs",
         "Repeaters: 7s on/3s off x6 reps per set",
         "4-6 sets on 20mm edge (half crimp)",
         "2-3 sets on slopers or pinch block",
         "3 min rest between sets",
         "Finish with easy climbing: 15-20 min"],
       strain := (10, 13) },
     { title := "Finger Strength + Crimpy Problems", duration := 90,
       description := "Target crimp strength on small holds",
       details :=
        ["Warm up: 15 min easy + finger prep",
         "Max hangs: 10s x5 on 18-20mm edge",
         "Add weight if >15s feels easy",
         "Rest 3 min between hangs",
         "Climb: Seek out crimpy problems at moderate grade",
         "Pinch block: 3x10s max effort holds",
         "Cool down: Antagonist + finger stretches"],
       strain := (9, 12) },
     { title := "Open Hand + Sloper Training", duration := 75,
       description := "Build open-hand and sloper strength",
       details :=
        ["Warm up: 20 min progressive",
         "Open hand hangs: 10s x5 on 35° sloper",
         "Sloper problems: Focus on body tension",
         "Pinch training: 3x8s each hand",
         "Compression drills on steep terrain",
         "Cool down: Wrist curls + finger extensions"],
       strain := (8, 11) }]
  else if intensity = "hard" then
    [{ title := "Max Hangs - Strength Protocol", duration := 90,
       description := "Maximum finger recruitment for strength gains",
       details :=
        ["Extended warm up: 30 min climbing + hangs",
         "Max hangs: 10s x5-6 on 18mm edge",
         "Add weight until 10s is near-max effort",
         "Full rest: 3-5 min between hangs",
         "Vary grips: Half crimp → Full crimp → 3-finger drag",
         "One-arm progressions if strong enough",
         "Total finger time: ~60-90s hard effort"],
       strain := (12, 15) },
     { title := "Limit Bouldering + Finger Power", duration := 120,
       description := "Maximum power on small holds",
       details :=
        ["Warm up: 30 min including progressive hangs",
         "Max hangs: 5s x4 heavy (near 1RM)",
         "Limit boulders: Focus on hard finger moves",
         "Seek out crimpy crux sequences",
         "Full recovery between attempts (4-5 min)",
         "Campus board: Ladders on small rungs (optional)",
         "Stop when power drops"],
       strain := (14, 17) },
     { title := "One-Arm Progressions", duration := 75,
       description := "Advanced finger strength development",
       details :=
        ["Warm up: 25 min + two-arm max hangs",
         "One-arm hangs: Assisted with pulley",
         "5s x3 each hand on 20mm",
         "Reduce assistance progressively",
         "Min edge hangs: Find your limit edge",
         "Offset hangs: 70/30 weight distribution",
         "Cool down: Easy climbing + stretching"],
       strain := (13, 16) }]
  else []

def RUNNING_WORKOUTS (intensity : String) : List WorkoutTemplate :=
  if intensity = "rest" then []
  else if intensity = "easy" then
    [{ title := "Recovery Run", duration := 25,
       description := "Very easy conversational pace",
       details :=
        ["Zone 1-2 heart rate only", "Should feel effortless",
         "Can hold full conversation", "Walk breaks are fine",
         "Focus on relaxed form"],
       strain := (4, 6) },
     { title := "Easy Jog + Mobility", duration := 35,
       description := "Light run followed by stretching",
       details :=
        ["20 min easy jog (Zone 2)", "15 min dynamic stretching",
         "Hip circles, leg swings, lunges", "Good option post-climbing"],
       strain := (5, 7) }]
  else if intensity = "moderate" then
    [{ title := "Steady State Run", duration := 45,
       description := "Moderate aerobic effort",
       details :=
        ["5 min warm up walk/jog", "35 min Zone 3 steady",
         "Comfortably hard - short sentences", "5 min cool down",
         "Focus on consistent pace"],
       strain := (9, 12) },
     { title := "Fartlek Run", duration := 40,
       description := "Unstructured speed play",
       details :=
        ["10 min easy warm up", "20 min fartlek: alternate fast/easy",
         "Fast segments: 30 sec - 2 min",
         "Easy segments: equal or longer recovery",
         "10 min easy cool down"],
       strain := (10, 13) }]
  else if intensity = "hard" then
    [{ title := "Interval Session", duration := 50,
       description := "Structured high-intensity intervals",
       details :=
        ["15 min progressive warm up", "5x 3 min hard (Zone 4-5)",
         "2 min easy jog between", "10 min cool down jog",
         "Focus on consistent effort each rep"],
       strain := (13, 16) },
     { title := "Tempo Run", duration := 55,
       description := "Sustained threshold effort",
       details :=
        ["15 min easy warm up", "25 min tempo (Zone 4)",
         "Comfortably uncomfortable pace", "15 min easy cool down",
         "No talking during tempo block"],
       strain := (14, 17) }]
  else []

def GYM_WORKOUTS (intensity : String) : List WorkoutTemplate :=
  if intensity = "rest" then []
  else if intensity = "easy" then
    [{ title := "Mobility & Core", duration := 40,
       description := "Active recovery focused on movement quality",
       details :=
        ["15 min foam rolling / stretching", "Core circuit: 3 rounds",
         "- Plank 30 sec", "- Dead bug 10 each side",
         "- Bird dog 10 each side", "15 min yoga flow or stretching"],
       strain := (3, 5) }]
  else if intensity = "moderate" then
    [{ title := "Full Body - Moderate", duration := 60,
       description := "Balanced strength session",
       details :=
        ["Warm up: 10 min cardio + dynamic stretches",
         "Squats or Lunges: 3x10", "Push (bench/press): 3x10",
         "Pull (rows/pullups): 3x10", "Core: 2x15 each",
         "Cool down stretching"],
       strain := (9, 12) },
     { title := "Climbing Antagonists", duration := 50,
       description := "Balance out climbing muscle imbalances",
       details :=
        ["Push focus to balance all the pulling", "Push ups: 3x15",
         "Shoulder press: 3x12", "Tricep dips: 3x12",
         "Reverse wrist curls: 3x15", "External rotation: 3x12 each"],
       strain := (7, 10) }]
  else if intensity = "hard" then
    [{ title := "Strength Session - Heavy", duration := 75,
       description := "Compound lifts at high intensity",
       details :=
        ["Warm up: 15 min progressive", "Squat/Deadlift: 5x5 heavy",
         "Bench/OHP: 4x6", "Pull ups weighted: 4x6",
         "Accessories: 2-3 exercises",
         "Rest 2-3 min between heavy sets"],
       strain := (12, 15) }]
  else []

/-- The single `"any"` entry of `SAUNA_WORKOUTS`. -/
def SAUNA_WORKOUTS_any : List WorkoutTemplate :=
  [{ title := "Sauna - Recovery Session", duration := 20,
     description := "Heat exposure for recovery",
     details :=
      ["2-3 rounds of 8-12 min", "Cool shower between rounds",
       "Hydrate well before and after",
       "Good for circulation and relaxation",
       "Best on rest days or after easy workouts"],
     strain := (2, 4) }]

/-! ## Workout generation (workout_generator.py lines 327-443) -/

/-- The catalog lookup of `generate_workout` (lines 330-339): an unknown
activity yields no options, as does an intensity absent from a catalog
dict. -/
def catalogFor (activity intensity : String) : List WorkoutTemplate :=
  if activity = "sauna" then SAUNA_WORKOUTS_any
  else if activity = "climbing" then CLIMBING_WORKOUTS intensity
  else if activity = "running" then RUNNING_WORKOUTS intensity
  else if activity = "gym" then GYM_WORKOUTS intensity
  else []

/-- `generate_workout`: `None` on an empty catalog, otherwise the workout
built from `random.choice(options)`; the random draw is modelled by the
explicit index `pick % options.length`. -/
def generate_workout (activity intensity : String) (pick : ℕ) :
    Option Workout :=
  let options := catalogFor activity intensity
  (options.get? (pick % options.length)).map (fun t =>
    { activity := activity, title := t.title, duration_min := t.duration,
      intensity := intensity, description := t.description,
      details := t.details, strain_estimate := t.strain })

/-- The intensity-zone computation recomputed inside `generate_day_plan`
(lines 367-375). -/
def generatorZone (recovery_score : ℚ) : String :=
  if recovery_score ≥ 67 then "hard"
  else if recovery_score ≥ 34 then "moderate"
  else if recovery_score ≥ 15 then "easy"
  else "rest"

/-- The fixed rest-day workout emitted on the rest path (lines 379-392). -/
def restDayWorkout : Workout :=
  { activity := "rest", title := "Rest Day", duration_min := 0,
    intensity := "rest",
    description := "Full recovery day - no training",
    details :=
      ["Sleep 8+ hours", "Light walking OK",
       "Focus on nutrition and hydration",
       "Sauna optional for circulation"],
    strain_estimate := (0, 3) }

/-- The recovery-scaled sauna adjustment (lines 432-440). -/
def adjustSauna (s : Workout) (recovery_score : ℚ) : Workout :=
  if recovery_score ≥ 67 then
    { s with duration_min := 20
             description := "Recovery sauna - great day for heat therapy" }
  else if recovery_score ≥ 34 then
    { s with duration_min := 15
             description := "Moderate sauna session for circulation" }
  else
    { s with duration_min := 10
             description := "Light sauna to aid recovery" }

/-- The primary-activity selection of a non-rest run of
`generate_day_plan` (lines 398-420).  Conditional `if x: append(x)` sites
contribute `[some w]` when the generator succeeded, while the
unconditional `append(...)` sites (lines 409, 411, 413, 417, 420)
contribute the optional value itself, exactly as the Python list holds
possible `None`s there.  `coin` models `random.random() > 0.5` and each
`pick` models one `random.choice` draw. -/
def primaryOptions (recovery_score : ℚ)
    (days_since_climb climb_count_7d : ℤ) (coin : Bool)
    (pick1 pick2 : ℕ) : List (Option Workout) :=
  let zone := generatorZone recovery_score
  if days_since_climb ≥ 2 ∧ climb_count_7d < 4 then
    match generate_workout "climbing" zone pick1 with
    | some w => [some w]
    | none => []
  else if days_since_climb = 1 then
    if zone = "hard" then
      if coin then [generate_workout "climbing" "easy" pick1]
      else [generate_workout "running" "moderate" pick1]
    else [generate_workout "running" zone pick1]
  else
    if zone ≠ "easy" then
      [(generate_workout "running" zone pick1).orElse
        (fun _ => generate_workout "gym" zone pick2)]
    else [generate_workout "gym" "easy" pick1]

/-- The full `workouts` list a non-rest run of `generate_day_plan` builds
before the final `None` filter (lines 398-441): the primary activity, the
bonus-session rule (lines 423-427) and the sauna attachment (lines
429-441). -/
def dayPlanOptions (recovery_score : ℚ)
    (days_since_climb climb_count_7d : ℤ) (coin : Bool)
    (pick1 pick2 pick3 pick4 : ℕ) : List (Option Workout) :=
  let zone := generatorZone recovery_score
  let primary := primaryOptions recovery_score days_since_climb
    climb_count_7d coin pick1 pick2
  let withBonus : List (Option Workout) :=
    if zone = "hard" ∧ primary.length = 1 ∧ recovery_score ≥ 75 then
      match generate_workout "running" "easy" pick3 with
      | some w => primary ++ [some { w with title := "Optional: " ++ w.title }]
      | none => primary
    else primary
  match generate_workout "sauna" "any" pick4 with
  | some s => withBonus ++ [some (adjustSauna s recovery_score)]
  | none => withBonus

/-- `generate_day_plan`: the rest path returns immediately (lines 377-396),
every other path filters the accumulated options (line 443).
`recent_strain_avg` is a parameter the source never reads. -/
def generate_day_plan (recovery_score : ℚ)
    (days_since_climb climb_count_7d : ℤ) (recent_strain_avg : ℚ)
    (coin : Bool) (pick1 pick2 pick3 pick4 : ℕ) : List Workout :=
  let zone := generatorZone recovery_score
  if zone = "rest" then
    restDayWorkout ::
      (match generate_workout "sauna" "any" pick4 with
       | some s => [s]
       | none => [])
  else
    (dayPlanOptions recovery_score days_since_climb climb_count_7d coin
      pick1 pick2 pick3 pick4).filterMap id

/-- The recovery-score threshold skeleton of the recommendation engine's
decision tree (training_planner.py lines 149, 183, 208-226): green (≥67,
base intensity hard), yellow (≥34, base moderate), red below 34 splitting
at 20 into rest and easy.  `decisionCore_tier` below proves this function
consistent with `getTodaysRecommendation`. -/
def plannerTier (rs : ℚ) : String :=
  if rs ≥ 67 then "hard"
  else if rs ≥ 34 then "moderate"
  else if rs < 20 then "rest"
  else "easy"

/-- Both range invariants of §3 of the spec, for a (min, max) strain pair. -/
def strainOk (p : ℚ × ℚ) : Prop := 0 ≤ p.1 ∧ p.1 ≤ p.2

/-- The one possible result of `generate_workout("sauna", "any")`: the
workout built from the single entry of `SAUNA_WORKOUTS["any"]`. -/
def saunaBase : Workout :=
  { activity := "sauna", title := "Sauna - Recovery Session",
    duration_min := 20, intensity := "any",
    description := "Heat exposure for recovery",
    details :=
      ["2-3 rounds of 8-12 min", "Cool shower between rounds",
       "Hydrate well before and after",
       "Good for circulation and relaxation",
       "Best on rest days or after easy workouts"],
    strain_estimate := (2, 4) }

/-! ## Helper lemmas -/

/-- Unscored records are invisible to the classification loop. -/
lemma foldl_addWorkout_filter (ws : List WorkoutRecord) (c : Categories) :
    ws.foldl addWorkout c = (ws.filter isScored).foldl addWorkout c := by
  induction ws generalizing c with
  | nil => rfl
  | cons w rest ih =>
    cases h : isScored w with
    | true => simp [List.filter_cons, h, ih]
    | false =>
      have hw : addWorkout c w = c := by simp [addWorkout, h]
      simp [List.filter_cons, h, ih, hw]

/-- Unfolding `get_todays_recommendation` on a scored recovery record. -/
lemma getTodaysRecommendation_scored (sd : RecoveryScoreData)
    (sleep : Option SleepRecord) (strains : List ℚ)
    (ws : List WorkoutRecord) (now : ℤ) :
    getTodaysRecommendation (some ⟨"SCORED", sd⟩) sleep strains ws now =
      decisionCore sd.recovery_score sd.hrv_rmssd_milli
        sd.resting_heart_rate
        (if sd.user_calibrating then
          ["WHOOP is still calibrating - recommendations may be less accurate"]
         else [])
        (extractSleepPerformance sleep)
        (daysSinceClimbing (getWorkoutsByType ws).climbing now)
        (climbingLoad7d (getWorkoutsByType ws).climbing).1
        (climbingLoad7d (getWorkoutsByType ws).climbing).2 := rfl

lemma decisionCore_green {rs : ℚ} (hrv rhr : Option ℚ) (w0 : List String)
    (sp : Option ℚ) (d : ℤ) (cc : ℕ) (cs : ℚ) (h : 67 ≤ rs) :
    decisionCore (some rs) hrv rhr w0 sp d cc cs =
      greenZone rs hrv rhr w0 d cc cs := by
  simp [decisionCore, h]

lemma decisionCore_yellow {rs : ℚ} (hrv rhr : Option ℚ) (w0 : List String)
    (sp : Option ℚ) (d : ℤ) (cc : ℕ) (cs : ℚ) (h67 : ¬ 67 ≤ rs)
    (h34 : 34 ≤ rs) :
    decisionCore (some rs) hrv rhr w0 sp d cc cs =
      yellowZone rs hrv rhr w0 sp d cc cs := by
  simp [decisionCore, h67, h34]

lemma decisionCore_red {rs : ℚ} (hrv rhr : Option ℚ) (w0 : List String)
    (sp : Option ℚ) (d : ℤ) (cc : ℕ) (cs : ℚ) (h34 : ¬ 34 ≤ rs) :
    decisionCore (some rs) hrv rhr w0 sp d cc cs =
      redZone rs hrv rhr w0 cc cs := by
  have h67 : ¬ 67 ≤ rs := fun h => h34 (by linarith)
  simp [decisionCore, h67, h34]

/-- In the green zone, two or more days of climbing rest together with a
weekly count below 4 reach the project-day branch. -/
lemma greenZone_fresh {rs : ℚ} (hrv rhr : Option ℚ) (w0 : List String)
    {d : ℤ} {cc : ℕ} (cs : ℚ) (hd : 2 ≤ d) (hcc : cc < 4) :
    (greenZone rs hrv rhr w0 d cc cs).intensity = "hard" ∧
    (greenZone rs hrv rhr w0 d cc cs).strain_target = (14, 18) := by
  have h0 : (d == 0) = false := by rw [beq_eq_false_iff_ne]; omega
  have h1 : (d == 1) = false := by rw [beq_eq_false_iff_ne]; omega
  have h4 : ¬ 4 ≤ cc := by omega
  constructor <;> simp [greenZone, h0, h1, h4, finishRecommendation]

/-- The yellow-zone sleep override fires exactly when the sleep value is
truthy (nonzero) and below 70, and then forces easy (6,10). -/
lemma yellowZone_sleep {rs sp : ℚ} (hrv rhr : Option ℚ) (w0 : List String)
    (d : ℤ) (cc : ℕ) (cs : ℚ) (h0 : sp ≠ 0) (h70 : sp < 70) :
    (yellowZone rs hrv rhr w0 (some sp) d cc cs).intensity = "easy" ∧
    (yellowZone rs hrv rhr w0 (some sp) d cc cs).strain_target = (6, 10) := by
  constructor <;> simp [yellowZone, h0, h70, finishRecommendation]

lemma redZone_rest {rs : ℚ} (hrv rhr : Option ℚ) (w0 : List String)
    (cc : ℕ) (cs : ℚ) (h20 : rs < 20) :
    (redZone rs hrv rhr w0 cc cs).intensity = "rest" ∧
    (redZone rs hrv rhr w0 cc cs).strain_target = (0, 5) := by
  constructor <;> simp [redZone, h20, finishRecommendation]

lemma redZone_easy {rs : ℚ} (hrv rhr : Option ℚ) (w0 : List String)
    (cc : ℕ) (cs : ℚ) (h20 : ¬ rs < 20) :
    (redZone rs hrv rhr w0 cc cs).intensity = "easy" ∧
    (redZone rs hrv rhr w0 cc cs).strain_target = (4, 8) := by
  constructor <;> simp [redZone, h20, finishRecommendation]

/-- Every green-zone sub-branch opens its reasoning with the green tier
line. -/
lemma greenZone_head (rs : ℚ) (hrv rhr : Option ℚ) (w0 : List String)
    (d : ℤ) (cc : ℕ) (cs : ℚ) :
    (greenZone rs hrv rhr w0 d cc cs).reasoning.head? =
      some ("Recovery " ++ fmt0 rs ++ "% (green) - body is ready") := by
  unfold greenZone
  split_ifs <;> simp [finishRecommendation]

/-- Every yellow-zone sub-branch opens its reasoning with the yellow tier
line. -/
lemma yellowZone_head (rs : ℚ) (hrv rhr : Option ℚ) (w0 : List String)
    (sp : Option ℚ) (d : ℤ) (cc : ℕ) (cs : ℚ) :
    (yellowZone rs hrv rhr w0 sp d cc cs).reasoning.head? =
      some ("Recovery " ++ fmt0 rs ++ "% (yellow) - moderate readiness") := by
  cases sp with
  | none => simp [yellowZone, finishRecommendation]
  | some v =>
    simp only [yellowZone]
    split_ifs <;> simp [finishRecommendation]

/-- With truthy HRV and RHR values, the shared tail appends exactly the HRV
line, the RHR line and the climbing-load summary, in that order. -/
lemma finishRecommendation_reasoning {i : String} {st : ℚ × ℚ}
    {rg : List String} {c rn g : String} {w : List String} {cc : ℕ}
    {cs h r : ℚ} (hh : h ≠ 0) (hr : r ≠ 0) :
    (finishRecommendation i st rg c rn g w (some h) (some r) cc cs).reasoning =
      rg ++ ["HRV: " ++ fmt1 h ++ "ms", "Resting HR: " ++ fmt0 r ++ "bpm",
             "7-day climbing: " ++ toString cc ++ " sessions, "
               ++ fmt1 cs ++ " total strain"] := by
  simp [finishRecommendation, hh, hr]

/-- Over every decision branch, truthy HRV and RHR values put the HRV line,
the RHR line and the climbing summary at the very end of the reasoning. -/
lemma decisionCore_reasoning_tail (rsc : Option ℚ) {h r : ℚ}
    (w0 : List String) (sp : Option ℚ) (d : ℤ) (cc : ℕ) (cs : ℚ)
    (hh : h ≠ 0) (hr : r ≠ 0) :
    ∃ pre, (decisionCore rsc (some h) (some r) w0 sp d cc cs).reasoning =
      pre ++ ["HRV: " ++ fmt1 h ++ "ms", "Resting HR: " ++ fmt0 r ++ "bpm",
              "7-day climbing: " ++ toString cc ++ " sessions, "
                ++ fmt1 cs ++ " total strain"] := by
  rcases rsc with _ | rs
  · exact ⟨_, finishRecommendation_reasoning hh hr⟩
  · by_cases h67 : 67 ≤ rs
    · rw [decisionCore_green _ _ _ _ _ _ _ h67]
      unfold greenZone
      split_ifs <;> exact ⟨_, finishRecommendation_reasoning hh hr⟩
    · by_cases h34 : 34 ≤ rs
      · rw [decisionCore_yellow _ _ _ _ _ _ _ h67 h34]
        rcases sp with _ | v <;> simp only [yellowZone] <;>
          split_ifs <;> exact ⟨_, finishRecommendation_reasoning hh hr⟩
      · rw [decisionCore_red _ _ _ _ _ _ _ h34]
        unfold redZone
        split_ifs <;> exact ⟨_, finishRecommendation_reasoning hh hr⟩

/-! ## Generator lemmas -/

lemma generatorZone_rest {rs : ℚ} (h : rs < 15) :
    generatorZone rs = "rest" := by
  unfold generatorZone
  rw [if_neg (by linarith), if_neg (by linarith), if_neg (by linarith)]

lemma generatorZone_hard {rs : ℚ} (h : 67 ≤ rs) :
    generatorZone rs = "hard" := by
  unfold generatorZone; rw [if_pos h]

lemma generatorZone_moderate {rs : ℚ} (h67 : ¬ 67 ≤ rs) (h34 : 34 ≤ rs) :
    generatorZone rs = "moderate" := by
  unfold generatorZone; rw [if_neg h67, if_pos h34]

lemma generatorZone_easy {rs : ℚ} (h34 : ¬ 34 ≤ rs) (h15 : 15 ≤ rs) :
    generatorZone rs = "easy" := by
  unfold generatorZone
  rw [if_neg (by linarith), if_neg h34, if_pos h15]

/-- The sauna catalog is a singleton, so every random draw yields the same
workout. -/
lemma generate_workout_sauna (p : ℕ) :
    generate_workout "sauna" "any" p = some saunaBase := by
  simp [generate_workout, catalogFor, SAUNA_WORKOUTS_any, Nat.mod_one,
    saunaBase]

/-- A non-empty catalog makes `generate_workout` succeed for every random
draw. -/
lemma generate_workout_isSome (a i : String) (p : ℕ)
    (h : catalogFor a i ≠ []) : (generate_workout a i p).isSome := by
  have hlen : 0 < (catalogFor a i).length := List.length_pos.mpr h
  have hm : p % (catalogFor a i).length < (catalogFor a i).length :=
    Nat.mod_lt _ hlen
  simp only [generate_workout]
  cases hg : (catalogFor a i).get? (p % (catalogFor a i).length) with
  | none => rw [List.get?_eq_none] at hg; omega
  | some t => simp [hg]

/-- Every successful `generate_workout` result is built from a catalog
entry. -/
lemma generate_workout_some {a i : String} {p : ℕ} {w : Workout}
    (h : generate_workout a i p = some w) :
    ∃ t ∈ catalogFor a i,
      w = { activity := a, title := t.title, duration_min := t.duration,
            intensity := i, description := t.description,
            details := t.details, strain_estimate := t.strain } := by
  simp only [generate_workout] at h
  rcases hg : (catalogFor a i).get? (p % (catalogFor a i).length) with _ | t
  · rw [hg] at h; simp at h
  · rw [hg] at h
    exact ⟨t, List.get?_mem hg, (Option.some.inj h).symm⟩

/-- Every catalog entry carries a non-negative, ordered strain range. -/
lemma catalog_strainOk {a i : String} {t : WorkoutTemplate}
    (ht : t ∈ catalogFor a i) : strainOk t.strain := by
  unfold catalogFor CLIMBING_WORKOUTS RUNNING_WORKOUTS GYM_WORKOUTS
    SAUNA_WORKOUTS_any at ht
  split_ifs at ht <;> fin_cases ht <;> exact ⟨by norm_num, by norm_num⟩

lemma generate_workout_strainOk {a i : String} {p : ℕ} {w : Workout}
    (h : generate_workout a i p = some w) : strainOk w.strain_estimate := by
  obtain ⟨t, ht, rfl⟩ := generate_workout_some h
  exact catalog_strainOk ht

lemma adjustSauna_strain (s : Workout) (rs : ℚ) :
    (adjustSauna s rs).strain_estimate = s.strain_estimate := by
  unfold adjustSauna; split_ifs <;> rfl

lemma adjustSauna_activity (s : Workout) (rs : ℚ) :
    (adjustSauna s rs).activity = s.activity := by
  unfold adjustSauna; split_ifs <;> rfl

/-- The accumulated options list always ends with the adjusted sauna
workout. -/
lemma dayPlanOptions_eq (rs : ℚ) (d c : ℤ) (coin : Bool)
    (p1 p2 p3 p4 : ℕ) :
    dayPlanOptions rs d c coin p1 p2 p3 p4 =
      (if generatorZone rs = "hard" ∧
          (primaryOptions rs d c coin p1 p2).length = 1 ∧ 75 ≤ rs then
         match generate_workout "running" "easy" p3 with
         | some w => primaryOptions rs d c coin p1 p2 ++
             [some { w with title := "Optional: " ++ w.title }]
         | none => primaryOptions rs d c coin p1 p2
       else primaryOptions rs d c coin p1 p2) ++
      [some (adjustSauna saunaBase rs)] := by
  unfold dayPlanOptions
  rw [generate_workout_sauna]

/-- The rest path of `generate_day_plan`: exactly the fixed rest-day
workout followed by the (unadjusted) sauna workout. -/
lemma generate_day_plan_rest {rs : ℚ} (d c : ℤ) (sa : ℚ) (coin : Bool)
    (p1 p2 p3 p4 : ℕ) (h : rs < 15) :
    generate_day_plan rs d c sa coin p1 p2 p3 p4 =
      [restDayWorkout, saunaBase] := by
  simp [generate_day_plan, generatorZone_rest h, generate_workout_sauna]

lemma generatorZone_cases (rs : ℚ) :
    generatorZone rs = "hard" ∨ generatorZone rs = "moderate" ∨
    generatorZone rs = "easy" ∨ generatorZone rs = "rest" := by
  unfold generatorZone; split_ifs <;> simp

lemma generatorZone_ne_rest {rs : ℚ} (h : 15 ≤ rs) :
    generatorZone rs ≠ "rest" := by
  unfold generatorZone
  split_ifs with h1 h2
  · decide
  · decide
  · decide

lemma mem_match_some_isSome {g o : Option Workout}
    (ho : o ∈ (match g with | some w => [some w] | none => [])) :
    o.isSome := by
  rcases g with _ | w
  · simp at ho
  · simp at ho; simp [ho]

lemma isSome_orElse_of_left {α : Type} {g : Option α} {f : Unit → Option α}
    (h : g.isSome) : (g.orElse f).isSome := by
  rcases g with _ | a
  · simp at h
  · simp [Option.orElse]

/-- Every optional workout appended by the primary-activity selection of a
non-rest zone is present (no `None` survives into the list). -/
lemma primaryOptions_isSome (rs : ℚ) (d c : ℤ) (coin : Bool) (p1 p2 : ℕ)
    (hz : generatorZone rs ≠ "rest") :
    ∀ o ∈ primaryOptions rs d c coin p1 p2, o.isSome := by
  intro o ho
  simp only [primaryOptions] at ho
  rcases generatorZone_cases rs with hzz | hzz | hzz | hzz <;>
    rw [hzz] at ho <;> [skip; skip; skip; exact absurd hzz hz] <;>
    split_ifs at ho <;>
    first
      | exact mem_match_some_isSome ho
      | (simp at ho; rw [ho]
         first
           | exact generate_workout_isSome _ _ _ (by decide)
           | exact isSome_orElse_of_left
               (generate_workout_isSome _ _ _ (by decide)))

/-- Every present workout in the primary-activity selection satisfies the
strain-range invariant. -/
lemma primaryOptions_strainOk (rs : ℚ) (d c : ℤ) (coin : Bool)
    (p1 p2 : ℕ) {w : Workout}
    (ho : some w ∈ primaryOptions rs d c coin p1 p2) :
    strainOk w.strain_estimate := by
  simp only [primaryOptions] at ho
  split_ifs at ho
  · rcases hg : generate_workout "climbing" (generatorZone rs) p1
      with _ | w0 <;> rw [hg] at ho <;> simp at ho
    rw [ho]
    exact generate_workout_strainOk hg
  · simp at ho; exact generate_workout_strainOk ho.symm
  · simp at ho; exact generate_workout_strainOk ho.symm
  · simp at ho; exact generate_workout_strainOk ho.symm
  · simp at ho
    rcases hg : generate_workout "running" (generatorZone rs) p1
      with _ | w1 <;> rw [hg] at ho <;> simp [Option.orElse] at ho
    · exact generate_workout_strainOk ho.symm
    · rw [ho]; exact generate_workout_strainOk hg
  · simp at ho; exact generate_workout_strainOk ho.symm

lemma saunaBase_strainOk : strainOk saunaBase.strain_estimate := by
  exact ⟨by norm_num [saunaBase], by norm_num [saunaBase]⟩

lemma restDayWorkout_strainOk : strainOk restDayWorkout.strain_estimate := by
  exact ⟨by norm_num [restDayWorkout], by norm_num [restDayWorkout]⟩

/-- Every present workout in the accumulated options list satisfies the
strain-range invariant. -/
lemma dayPlanOptions_strainOk (rs : ℚ) (d c : ℤ) (coin : Bool)
    (p1 p2 p3 p4 : ℕ) {w : Workout}
    (ho : some w ∈ dayPlanOptions rs d c coin p1 p2 p3 p4) :
    strainOk w.strain_estimate := by
  rw [dayPlanOptions_eq] at ho
  rcases List.mem_append.mp ho with ho | ho
  · split_ifs at ho with hb
    · rcases hg : generate_workout "running" "easy" p3 with _ | w1 <;>
        rw [hg] at ho
      · exact primaryOptions_strainOk _ _ _ _ _ _ ho
      · rcases List.mem_append.mp ho with ho | ho
        · exact primaryOptions_strainOk _ _ _ _ _ _ ho
        · simp at ho
          rw [ho]
          show strainOk w1.strain_estimate
          exact generate_workout_strainOk hg
    · exact primaryOptions_strainOk _ _ _ _ _ _ ho
  · simp at ho
    rw [ho, adjustSauna_strain]
    exact saunaBase_strainOk

/-- No `None` survives into the accumulated options list of a non-rest
zone. -/
lemma dayPlanOptions_isSome (rs : ℚ) (d c : ℤ) (coin : Bool)
    (p1 p2 p3 p4 : ℕ) (hz : generatorZone rs ≠ "rest") :
    ∀ o ∈ dayPlanOptions rs d c coin p1 p2 p3 p4, o.isSome := by
  intro o ho
  rw [dayPlanOptions_eq] at ho
  rcases List.mem_append.mp ho with ho | ho
  · split_ifs at ho with hb
    · rcases hg : generate_workout "running" "easy" p3 with _ | w1 <;>
        rw [hg] at ho
      · exact primaryOptions_isSome _ _ _ _ _ _ hz _ ho
      · rcases List.mem_append.mp ho with ho | ho
        · exact primaryOptions_isSome _ _ _ _ _ _ hz _ ho
        · simp at ho; simp [ho]
    · exact primaryOptions_isSome _ _ _ _ _ _ hz _ ho
  · simp at ho; simp [ho]

lemma dayPlanOptions_sauna_last (rs : ℚ) (d c : ℤ) (coin : Bool)
    (p1 p2 p3 p4 : ℕ) :
    ∃ B, dayPlanOptions rs d c coin p1 p2 p3 p4 =
      B ++ [some (adjustSauna saunaBase rs)] :=
  ⟨_, dayPlanOptions_eq rs d c coin p1 p2 p3 p4⟩

lemma finishRecommendation_strain_target (i : String) (st : ℚ × ℚ)
    (rg : List String) (c rn g : String) (w : List String)
    (hrv rhr : Option ℚ) (cc : ℕ) (cs : ℚ) :
    (finishRecommendation i st rg c rn g w hrv rhr cc cs).strain_target =
      st := rfl

/-- Every decision branch emits a non-negative, ordered strain target. -/
lemma decisionCore_strainOk (rsc hrv rhr : Option ℚ) (w0 : List String)
    (sp : Option ℚ) (d : ℤ) (cc : ℕ) (cs : ℚ) :
    strainOk (decisionCore rsc hrv rhr w0 sp d cc cs).strain_target := by
  rcases rsc with _ | rs
  · show strainOk ((8 : ℚ), (12 : ℚ))
    exact ⟨by norm_num, by norm_num⟩
  · by_cases h67 : 67 ≤ rs
    · rw [decisionCore_green _ _ _ _ _ _ _ h67]
      simp only [greenZone]
      split_ifs <;> rw [finishRecommendation_strain_target] <;>
        exact ⟨by norm_num, by norm_num⟩
    · by_cases h34 : 34 ≤ rs
      · rw [decisionCore_yellow _ _ _ _ _ _ _ h67 h34]
        rcases sp with _ | v <;> simp only [yellowZone] <;> split_ifs <;>
          rw [finishRecommendation_strain_target] <;>
          exact ⟨by norm_num, by norm_num⟩
      · rw [decisionCore_red _ _ _ _ _ _ _ h34]
        simp only [redZone]
        split_ifs <;> rw [finishRecommendation_strain_target] <;>
          exact ⟨by norm_num, by norm_num⟩

/-! ## Claim theorems -/

/-- C6: workout classification is deterministic and order-sensitive — the
lower-cased sport name is tested against the keyword lists in the priority
order climbing, running, gym, sauna; the first matching category wins and
no match yields "other"; "Bouldering Run Club" matches both the climbing
and the running keyword sets yet classifies as "climbing"; and unscored
workout records are excluded from every category list. -/
theorem c6_classifier_priority :
    (∀ s, hasKeyword climbing_keywords (lowerChars s) = true →
       classifySport s = "climbing") ∧
    (∀ s, hasKeyword climbing_keywords (lowerChars s) = false →
       hasKeyword running_keywords (lowerChars s) = true →
       classifySport s = "running") ∧
    (∀ s, hasKeyword climbing_keywords (lowerChars s) = false →
       hasKeyword running_keywords (lowerChars s) = false →
       hasKeyword gym_keywords (lowerChars s) = true →
       classifySport s = "gym") ∧
    (∀ s, hasKeyword climbing_keywords (lowerChars s) = false →
       hasKeyword running_keywords (lowerChars s) = false →
       hasKeyword gym_keywords (lowerChars s) = false →
       hasKeyword sauna_keywords (lowerChars s) = true →
       classifySport s = "sauna") ∧
    (∀ s, hasKeyword climbing_keywords (lowerChars s) = false →
       hasKeyword running_keywords (lowerChars s) = false →
       hasKeyword gym_keywords (lowerChars s) = false →
       hasKeyword sauna_keywords (lowerChars s) = false →
       classifySport s = "other") ∧
    hasKeyword climbing_keywords (lowerChars "Bouldering Run Club") = true ∧
    hasKeyword running_keywords (lowerChars "Bouldering Run Club") = true ∧
    classifySport "Bouldering Run Club" = "climbing" ∧
    (∀ ws, getWorkoutsByType ws = getWorkoutsByType (ws.filter isScored)) := by
  refine ⟨?_, ?_, ?_, ?_, ?_, by decide, by decide, by decide, ?_⟩
  · intro s h; simp [classifySport, h]
  · intro s h1 h2; simp [classifySport, h1, h2]
  · intro s h1 h2 h3; simp [classifySport, h1, h2, h3]
  · intro s h1 h2 h3 h4; simp [classifySport, h1, h2, h3, h4]
  · intro s h1 h2 h3 h4; simp [classifySport, h1, h2, h3, h4]
  · intro ws; exact foldl_addWorkout_filter ws Categories.empty

/-- Witness for C6 at concrete inputs: the tie-breaking sport name, and an
unscored record that is dropped. -/
theorem c6_witness :
    classifySport "Bouldering Run Club" = "climbing" ∧
    getWorkoutsByType [⟨"PENDING", none, "Running", 0⟩] =
      getWorkoutsByType ([⟨"PENDING", none, "Running", 0⟩].filter isScored) :=
  ⟨c6_classifier_priority.1 "Bouldering Run Club" (by decide),
   c6_classifier_priority.2.2.2.2.2.2.2.2 [⟨"PENDING", none, "Running", 0⟩]⟩

/-- C7: the recommendation computation is deterministic — identical recovery
snapshot, sleep snapshot, cycle strain list, workout records (and day
index) give identical `TrainingRecommendation` values in every field,
including the exact reasoning and warning lists. -/
theorem c7_deterministic (r1 r2 : Option RecoveryRecord)
    (s1 s2 : Option SleepRecord) (c1 c2 : List ℚ)
    (w1 w2 : List WorkoutRecord) (n1 n2 : ℤ)
    (hr : r1 = r2) (hs : s1 = s2) (hc : c1 = c2) (hw : w1 = w2)
    (hn : n1 = n2) :
    getTodaysRecommendation r1 s1 c1 w1 n1 =
      getTodaysRecommendation r2 s2 c2 w2 n2 := by
  subst hr hs hc hw hn; rfl

/-- Witness for C7 at a concrete input. -/
theorem c7_witness :
    getTodaysRecommendation none none [] [] 0 =
      getTodaysRecommendation none none [] [] 0 :=
  c7_deterministic none none none none [] [] [] [] 0 0 rfl rfl rfl rfl rfl

/-- C4: for every recovery_score in [67,100], whenever the derived
days_since_climb is at least 2 and the 7-day climbing count is below 4, the
recommendation is "hard" with strain target exactly (14, 18). -/
theorem c4_green_fresh_hard (sd : RecoveryScoreData) (rs : ℚ)
    (sleep : Option SleepRecord) (strains : List ℚ)
    (ws : List WorkoutRecord) (now : ℤ)
    (hsc : sd.recovery_score = some rs) (h67 : 67 ≤ rs) (h100 : rs ≤ 100)
    (hd : 2 ≤ daysSinceClimbing (getWorkoutsByType ws).climbing now)
    (hcc : (climbingLoad7d (getWorkoutsByType ws).climbing).1 < 4) :
    (getTodaysRecommendation (some ⟨"SCORED", sd⟩)
      sleep strains ws now).intensity = "hard" ∧
    (getTodaysRecommendation (some ⟨"SCORED", sd⟩)
      sleep strains ws now).strain_target = (14, 18) := by
  rw [getTodaysRecommendation_scored, hsc,
    decisionCore_green _ _ _ _ _ _ _ h67]
  exact greenZone_fresh _ _ _ _ hd hcc

/-- Witness for C4 at recovery 70 with no recorded climbing. -/
theorem c4_witness :
    (getTodaysRecommendation
      (some ⟨"SCORED", ⟨some 70, none, none, false⟩⟩) none [] []
      0).intensity = "hard" ∧
    (getTodaysRecommendation
      (some ⟨"SCORED", ⟨some 70, none, none, false⟩⟩) none [] []
      0).strain_target = (14, 18) :=
  c4_green_fresh_hard ⟨some 70, none, none, false⟩ 70 none [] [] 0 rfl
    (by norm_num) (by norm_num) (by decide) (by decide)

/-- C1 counterexample: recovery 50 (yellow tier) with a KNOWN
sleep_performance of 0 — which is strictly less than 70 — still yields
"moderate", because `if sleep_performance and sleep_performance < 70` is a
Python truthiness test that skips the override at 0. -/
theorem c1_counterexample :
    (getTodaysRecommendation (some ⟨"SCORED", ⟨some 50, none, none, false⟩⟩)
      (some ⟨"SCORED", ⟨some 0⟩⟩) [] [] 0).intensity = "moderate" ∧
    (getTodaysRecommendation (some ⟨"SCORED", ⟨some 50, none, none, false⟩⟩)
      (some ⟨"SCORED", ⟨some 0⟩⟩) [] [] 0).intensity ≠ "easy" := by
  exact ⟨by decide, by decide⟩

/-- C1 amended: for every recovery_score in [34,66] and every known AND
NONZERO sleep_performance value strictly below 70, the final intensity is
"easy" with strain target (6, 10), for all values of days_since_climb
(i.e. for every workout history and day index). -/
theorem c1_sleep_override (sd : RecoveryScoreData) (rs sp : ℚ)
    (strains : List ℚ) (ws : List WorkoutRecord) (now : ℤ)
    (hsc : sd.recovery_score = some rs) (h34 : 34 ≤ rs) (h66 : rs ≤ 66)
    (hsp0 : sp ≠ 0) (hsp70 : sp < 70) :
    (getTodaysRecommendation (some ⟨"SCORED", sd⟩)
      (some ⟨"SCORED", ⟨some sp⟩⟩) strains ws now).intensity = "easy" ∧
    (getTodaysRecommendation (some ⟨"SCORED", sd⟩)
      (some ⟨"SCORED", ⟨some sp⟩⟩) strains ws now).strain_target =
      (6, 10) := by
  have h67 : ¬ 67 ≤ rs := by linarith
  rw [getTodaysRecommendation_scored, hsc,
    (rfl :
      extractSleepPerformance (some ⟨"SCORED", ⟨some sp⟩⟩) = some sp),
    decisionCore_yellow _ _ _ _ _ _ _ h67 h34]
  exact yellowZone_sleep _ _ _ _ _ _ hsp0 hsp70

/-- Witness for C1 amended at recovery 50, sleep 40. -/
theorem c1_witness :
    (getTodaysRecommendation (some ⟨"SCORED", ⟨some 50, none, none, false⟩⟩)
      (some ⟨"SCORED", ⟨some 40⟩⟩) [] [] 0).intensity = "easy" ∧
    (getTodaysRecommendation (some ⟨"SCORED", ⟨some 50, none, none, false⟩⟩)
      (some ⟨"SCORED", ⟨some 40⟩⟩) [] [] 0).strain_target = (6, 10) :=
  c1_sleep_override ⟨some 50, none, none, false⟩ 50 40 [] [] 0 rfl
    (by norm_num) (by norm_num) (by norm_num) (by norm_num)

/-- C2 counterexample: at recovery_score exactly 15 the recommendation
engine does NOT select the easy tier — its red zone splits at 20, so 15
yields intensity "rest" — while the plan generator's zone at 15 is
"easy". -/
theorem c2_counterexample :
    (getTodaysRecommendation (some ⟨"SCORED", ⟨some 15, none, none, false⟩⟩)
      none [] [] 0).intensity = "rest" ∧
    (getTodaysRecommendation (some ⟨"SCORED", ⟨some 15, none, none, false⟩⟩)
      none [] [] 0).intensity ≠ "easy" ∧
    generatorZone 15 = "easy" := by
  exact ⟨by decide, by decide, by decide⟩

lemma plannerTier_rest_bounds (rs : ℚ) (h : plannerTier rs = "rest") :
    ¬ 34 ≤ rs ∧ rs < 20 := by
  unfold plannerTier at h
  split_ifs at h with h1 h2 h3
  · simp at h
  · simp at h
  · exact ⟨h2, h3⟩
  · simp at h

lemma plannerTier_easy_bounds (rs : ℚ) (h : plannerTier rs = "easy") :
    ¬ 34 ≤ rs ∧ ¬ rs < 20 := by
  unfold plannerTier at h
  split_ifs at h with h1 h2 h3
  · simp at h
  · simp at h
  · simp at h
  · exact ⟨h2, h3⟩

/-- C2 amended: recovery_score 67 and 34 select the tier with that lower
bound in both components (green/hard and yellow/moderate); recovery_score
15 selects easy in the plan generator's zone mapping, but in the
recommendation engine 15 lies in the red tier below its rest threshold of
20, so the engine selects rest there. -/
theorem c2_boundary_amended :
    generatorZone 67 = "hard" ∧ generatorZone 34 = "moderate" ∧
    generatorZone 15 = "easy" ∧
    (∀ (sd : RecoveryScoreData) (sleep : Option SleepRecord)
       (strains : List ℚ) (ws : List WorkoutRecord) (now : ℤ),
       sd.recovery_score = some 67 →
       (getTodaysRecommendation (some ⟨"SCORED", sd⟩)
         sleep strains ws now).reasoning.head? =
         some ("Recovery " ++ fmt0 67 ++ "% (green) - body is ready")) ∧
    (∀ (sd : RecoveryScoreData) (sleep : Option SleepRecord)
       (strains : List ℚ) (ws : List WorkoutRecord) (now : ℤ),
       sd.recovery_score = some 34 →
       (getTodaysRecommendation (some ⟨"SCORED", sd⟩)
         sleep strains ws now).reasoning.head? =
         some ("Recovery " ++ fmt0 34
           ++ "% (yellow) - moderate readiness")) ∧
    (∀ (sd : RecoveryScoreData) (sleep : Option SleepRecord)
       (strains : List ℚ) (ws : List WorkoutRecord) (now : ℤ),
       sd.recovery_score = some 15 →
       (getTodaysRecommendation (some ⟨"SCORED", sd⟩)
         sleep strains ws now).intensity = "rest") := by
  refine ⟨by decide, by decide, by decide, ?_, ?_, ?_⟩
  · intro sd sleep strains ws now hsc
    rw [getTodaysRecommendation_scored, hsc,
      decisionCore_green _ _ _ _ _ _ _ (by norm_num)]
    exact greenZone_head _ _ _ _ _ _ _
  · intro sd sleep strains ws now hsc
    rw [getTodaysRecommendation_scored, hsc,
      decisionCore_yellow _ _ _ _ _ _ _ (by norm_num) (by norm_num)]
    exact yellowZone_head _ _ _ _ _ _ _ _
  · intro sd sleep strains ws now hsc
    rw [getTodaysRecommendation_scored, hsc,
      decisionCore_red _ _ _ _ _ _ _ (by norm_num)]
    exact (redZone_rest _ _ _ _ _ (by norm_num)).1

/-- Witness for C2 amended at recovery 34 with arbitrary other fields. -/
theorem c2_witness :
    (getTodaysRecommendation (some ⟨"SCORED", ⟨some 34, some 45, none, true⟩⟩)
      none [] [] 3).reasoning.head? =
      some ("Recovery " ++ fmt0 34 ++ "% (yellow) - moderate readiness") :=
  c2_boundary_amended.2.2.2.2.1 ⟨some 34, some 45, none, true⟩ none [] [] 3
    rfl

/-- C3 counterexample: at recovery_score 17 the plan generator's zone is
"easy" while the recommendation engine places 17 in its rest branch, so
the two components do not put every score in the same tier. -/
theorem c3_counterexample :
    generatorZone 17 = "easy" ∧
    plannerTier 17 = "rest" ∧
    (getTodaysRecommendation (some ⟨"SCORED", ⟨some 17, none, none, false⟩⟩)
      none [] [] 0).intensity = "rest" := by
  exact ⟨by decide, by decide, by decide⟩

/-- C3 amended: the generator's zone mapping and the engine's tier skeleton
agree at the hard (≥67) and moderate (≥34) thresholds, but their easy/rest
boundaries differ — the generator splits at 15 while the engine splits at
20 — so the two mappings agree exactly outside [15, 20).  The last two
conjuncts ground `plannerTier` in the engine: a score in its rest
(respectively easy) region makes `get_todays_recommendation` return
intensity "rest" (respectively "easy"). -/
theorem c3_threshold_equiv :
    (∀ rs : ℚ, generatorZone rs = plannerTier rs ↔
       ¬ (15 ≤ rs ∧ rs < 20)) ∧
    (∀ (sd : RecoveryScoreData) (rs : ℚ) (sleep : Option SleepRecord)
       (strains : List ℚ) (ws : List WorkoutRecord) (now : ℤ),
       sd.recovery_score = some rs → plannerTier rs = "rest" →
       (getTodaysRecommendation (some ⟨"SCORED", sd⟩)
         sleep strains ws now).intensity = "rest") ∧
    (∀ (sd : RecoveryScoreData) (rs : ℚ) (sleep : Option SleepRecord)
       (strains : List ℚ) (ws : List WorkoutRecord) (now : ℤ),
       sd.recovery_score = some rs → plannerTier rs = "easy" →
       (getTodaysRecommendation (some ⟨"SCORED", sd⟩)
         sleep strains ws now).intensity = "easy") := by
  refine ⟨?_, ?_, ?_⟩
  · intro rs
    unfold generatorZone plannerTier
    split_ifs <;> simp <;> intros <;>
      first
        | linarith
        | (constructor <;> linarith)
  · intro sd rs sleep strains ws now hsc hpt
    obtain ⟨h34, h20⟩ := plannerTier_rest_bounds rs hpt
    rw [getTodaysRecommendation_scored, hsc,
      decisionCore_red _ _ _ _ _ _ _ h34]
    exact (redZone_rest _ _ _ _ _ h20).1
  · intro sd rs sleep strains ws now hsc hpt
    obtain ⟨h34, h20⟩ := plannerTier_easy_bounds rs hpt
    rw [getTodaysRecommendation_scored, hsc,
      decisionCore_red _ _ _ _ _ _ _ h34]
    exact (redZone_easy _ _ _ _ _ h20).1

/-- Witness for C3 amended: the equivalence instantiated at 25, and the
groundings at 19 (rest) and 25 (easy). -/
theorem c3_witness :
    (generatorZone 25 = plannerTier 25 ↔
      ¬ (15 ≤ (25 : ℚ) ∧ (25 : ℚ) < 20)) ∧
    (getTodaysRecommendation (some ⟨"SCORED", ⟨some 19, none, none, false⟩⟩)
      none [] [] 0).intensity = "rest" ∧
    (getTodaysRecommendation (some ⟨"SCORED", ⟨some 25, none, none, false⟩⟩)
      none [] [] 0).intensity = "easy" :=
  ⟨c3_threshold_equiv.1 25,
   c3_threshold_equiv.2.1 ⟨some 19, none, none, false⟩ 19 none [] [] 0 rfl
     (by decide),
   c3_threshold_equiv.2.2 ⟨some 25, none, none, false⟩ 25 none [] [] 0 rfl
     (by decide)⟩

/-- C9 counterexample: HRV and resting-heart-rate values of 0 are present
in the scored recovery record, yet `if hrv:` / `if rhr:` are Python
truthiness tests, so neither metric line is appended — the reasoning has
only two entries and cannot end with the claimed three-entry tail. -/
theorem c9_counterexample :
    ¬ ∃ pre : List String,
      (getTodaysRecommendation
        (some ⟨"SCORED", ⟨some 50, some 0, some 0, false⟩⟩) none [] []
        0).reasoning =
        pre ++ ["HRV: " ++ fmt1 0 ++ "ms", "Resting HR: " ++ fmt0 0 ++ "bpm",
                "7-day climbing: " ++ toString 0 ++ " sessions, "
                  ++ fmt1 0 ++ " total strain"] := by
  rintro ⟨pre, h⟩
  rw [(by decide :
    (getTodaysRecommendation
      (some ⟨"SCORED", ⟨some 50, some 0, some 0, false⟩⟩) none [] []
      0).reasoning =
      ["Recovery 50% (yellow) - moderate readiness",
       "7-day climbing: 0 sessions, 0.0 total strain"])] at h
  have hlen := congrArg List.length h
  simp [List.length_append] at hlen

/-- C9 amended: whenever the scored recovery record carries present AND
NONZERO HRV and resting-heart-rate values, the reasoning list ends exactly
with the HRV entry, the resting-heart-rate entry, and the 7-day
climbing-load summary, in that order. -/
theorem c9_metrics_tail (sd : RecoveryScoreData) (h r : ℚ)
    (sleep : Option SleepRecord) (strains : List ℚ)
    (ws : List WorkoutRecord) (now : ℤ)
    (hh : sd.hrv_rmssd_milli = some h) (hh0 : h ≠ 0)
    (hr : sd.resting_heart_rate = some r) (hr0 : r ≠ 0) :
    ∃ pre, (getTodaysRecommendation (some ⟨"SCORED", sd⟩)
      sleep strains ws now).reasoning =
      pre ++ ["HRV: " ++ fmt1 h ++ "ms", "Resting HR: " ++ fmt0 r ++ "bpm",
              "7-day climbing: "
                ++ toString (climbingLoad7d (getWorkoutsByType ws).climbing).1
                ++ " sessions, "
                ++ fmt1 (climbingLoad7d (getWorkoutsByType ws).climbing).2
                ++ " total strain"] := by
  rw [getTodaysRecommendation_scored, hh, hr]
  exact decisionCore_reasoning_tail _ _ _ _ _ _ hh0 hr0

/-- C5: for every recovery_score below the rest threshold and all values of
the other arguments (including every random draw), `generate_day_plan`
returns exactly the fixed "Rest Day" workout followed by one sauna workout
and nothing else. -/
theorem c5_rest_day_plan (rs : ℚ) (d c : ℤ) (sa : ℚ) (coin : Bool)
    (p1 p2 p3 p4 : ℕ) (h : rs < 15) :
    generate_day_plan rs d c sa coin p1 p2 p3 p4 =
      [restDayWorkout, saunaBase] ∧
    restDayWorkout.activity = "rest" ∧
    restDayWorkout.title = "Rest Day" ∧
    saunaBase.activity = "sauna" :=
  ⟨generate_day_plan_rest _ _ _ _ _ _ _ _ h, rfl, rfl, rfl⟩

/-- Witness for C5 at recovery 10 and arbitrary other arguments. -/
theorem c5_witness :
    generate_day_plan 10 5 7 3 true 0 1 2 3 =
      [restDayWorkout, saunaBase] ∧
    restDayWorkout.activity = "rest" ∧
    restDayWorkout.title = "Rest Day" ∧
    saunaBase.activity = "sauna" :=
  c5_rest_day_plan 10 5 7 3 true 0 1 2 3 (by norm_num)

/-- C8: every strain_target produced by the recommendation engine and every
strain_estimate carried by any workout of any generated day plan satisfies
0 ≤ min and min ≤ max, for all inputs and all random draws. -/
theorem c8_strain_ranges :
    (∀ (recovery : Option RecoveryRecord) (sleep : Option SleepRecord)
       (strains : List ℚ) (ws : List WorkoutRecord) (now : ℤ),
       strainOk (getTodaysRecommendation recovery sleep strains ws
         now).strain_target) ∧
    (∀ (rs : ℚ) (d c : ℤ) (sa : ℚ) (coin : Bool) (p1 p2 p3 p4 : ℕ)
       (w : Workout), w ∈ generate_day_plan rs d c sa coin p1 p2 p3 p4 →
       strainOk w.strain_estimate) := by
  constructor
  · intro recovery sleep strains ws now
    exact decisionCore_strainOk _ _ _ _ _ _ _ _
  · intro rs d c sa coin p1 p2 p3 p4 w hw
    by_cases hrest : rs < 15
    · rw [generate_day_plan_rest _ _ _ _ _ _ _ _ hrest] at hw
      simp at hw
      rcases hw with rfl | rfl
      · exact restDayWorkout_strainOk
      · exact saunaBase_strainOk
    · have hz := generatorZone_ne_rest (le_of_not_lt hrest)
      simp only [generate_day_plan] at hw
      rw [if_neg hz] at hw
      obtain ⟨o, ho, hio⟩ := List.mem_filterMap.mp hw
      simp only [id] at hio
      subst hio
      exact dayPlanOptions_strainOk _ _ _ _ _ _ _ _ ho

/-- Witness for C8 at a concrete engine input and a concrete plan member. -/
theorem c8_witness :
    strainOk (getTodaysRecommendation none none [] [] 0).strain_target ∧
    strainOk restDayWorkout.strain_estimate :=
  ⟨c8_strain_ranges.1 none none [] [] 0,
   c8_strain_ranges.2 10 0 0 0 true 0 0 0 0 restDayWorkout (by decide)⟩

/-- C10: every generated day plan is non-empty, contains no `None` entry
(every accumulated option is present), and ends with a sauna workout whose
duration in the non-rest zones is 20 for recovery ≥ 67, 15 for recovery in
[34, 67), and 10 for recovery in [15, 34). -/
theorem c10_plan_shape (rs : ℚ) (d c : ℤ) (sa : ℚ) (coin : Bool)
    (p1 p2 p3 p4 : ℕ) :
    generate_day_plan rs d c sa coin p1 p2 p3 p4 ≠ [] ∧
    (∃ s, (generate_day_plan rs d c sa coin p1 p2 p3 p4).getLast? =
        some s ∧
      s.activity = "sauna" ∧
      (67 ≤ rs → s.duration_min = 20) ∧
      (34 ≤ rs → rs < 67 → s.duration_min = 15) ∧
      (15 ≤ rs → rs < 34 → s.duration_min = 10)) ∧
    (generatorZone rs ≠ "rest" →
      ∀ o ∈ dayPlanOptions rs d c coin p1 p2 p3 p4, o.isSome) := by
  by_cases hrest : rs < 15
  · rw [generate_day_plan_rest _ _ _ _ _ _ _ _ hrest]
    refine ⟨by simp, ⟨saunaBase, by rfl, rfl, ?_, ?_, ?_⟩, ?_⟩
    · intro h67; rfl
    · intro h34 h67; linarith
    · intro h15 h34; linarith
    · intro hz; exact absurd (generatorZone_rest hrest) hz
  · have h15 : 15 ≤ rs := le_of_not_lt hrest
    have hz := generatorZone_ne_rest h15
    have hplan : generate_day_plan rs d c sa coin p1 p2 p3 p4 =
        (dayPlanOptions rs d c coin p1 p2 p3 p4).filterMap id := by
      simp only [generate_day_plan]; rw [if_neg hz]
    obtain ⟨B, hB⟩ := dayPlanOptions_sauna_last rs d c coin p1 p2 p3 p4
    have hfm : (dayPlanOptions rs d c coin p1 p2 p3 p4).filterMap id =
        B.filterMap id ++ [adjustSauna saunaBase rs] := by
      rw [hB]; simp
    rw [hplan, hfm]
    refine ⟨by simp, ⟨adjustSauna saunaBase rs, ?_, ?_, ?_, ?_, ?_⟩,
      fun _ => dayPlanOptions_isSome _ _ _ _ _ _ _ _ hz⟩
    · simp
    · rw [adjustSauna_activity]; rfl
    · intro h67; simp [adjustSauna, h67]
    · intro h34 h67
      simp [adjustSauna, h34, not_le.mpr h67]
    · intro h15' h34
      simp [adjustSauna, show ¬ 67 ≤ rs by linarith,
        show ¬ 34 ≤ rs from not_le.mpr h34]

/-- Witness for C10 at recovery 80 with a fresh-climbing history. -/
theorem c10_witness :
    generate_day_plan 80 5 1 10 true 0 0 0 0 ≠ [] ∧
    (∃ s, (generate_day_plan 80 5 1 10 true 0 0 0 0).getLast? = some s ∧
      s.activity = "sauna" ∧ s.duration_min = 20) := by
  obtain ⟨hne, ⟨s, hlast, hact, h20, _, _⟩, _⟩ :=
    c10_plan_shape 80 5 1 10 true 0 0 0 0
  exact ⟨hne, s, hlast, hact, h20 (by norm_num)⟩

/-- Witness for C9 amended at recovery 70, HRV 52, RHR 60. -/
theorem c9_witness :
    ∃ pre, (getTodaysRecommendation
      (some ⟨"SCORED", ⟨some 70, some 52, some 60, false⟩⟩) none [] []
      0).reasoning =
      pre ++ ["HRV: " ++ fmt1 52 ++ "ms", "Resting HR: " ++ fmt0 60 ++ "bpm",
              "7-day climbing: "
                ++ toString
                  (climbingLoad7d
                    (getWorkoutsByType ([] : List WorkoutRecord)).climbing).1
                ++ " sessions, "
                ++ fmt1
                  (climbingLoad7d
                    (getWorkoutsByType ([] : List WorkoutRecord)).climbing).2
                ++ " total strain"] :=
  c9_metrics_tail ⟨some 70, some 52, some 60, false⟩ 52 60 none [] [] 0 rfl
    (by norm_num) rfl (by norm_num)

end Whoop
